import Mathlib

/-!
Shallow embedding of the booking-concurrency core of the cinema reservation
service (NestJS/TypeORM), together with proofs about its behaviour.

The embedding models the database as an in-memory record of lists of rows.
Every service or repository method that runs inside a database transaction is
modelled as a pure function `DB → ... → Except Err (DB × result)`: returning
`.error e` corresponds to the TypeScript code throwing, which makes
`dataSource.transaction` roll back, so an error result carries no updated
state.  Timestamps are integers (a `Date` compared with `<=`/`<`), prices and
counters are integers, row ids are naturals.

To settle ordering claims about the pessimistic lock, the purchase and cancel
flows are additionally instrumented with an event trace: each function returns
the list of abstract events (reads, checks, lock acquisition, writes) in the
order the corresponding statements execute in the TypeScript source.
-/

namespace Quetzal

/-! ## Data model (entities, from the TypeORM entity classes) -/

/-- `theaters` table: `theater.entity.ts` (id, capacity, is_active; name and
timestamps are irrelevant to the claims and omitted). -/
structure Theater where
  id : Nat
  capacity : Int
  is_active : Bool
  deriving Repr, DecidableEq

/-- `movies` table: `movie.entity.ts` (duration in minutes). -/
structure Movie where
  id : Nat
  duration : Int
  deriving Repr, DecidableEq

/-- `showtimes` table: `showtime.entity.ts`.  The `movie` / `theater`
relations are modelled by their foreign-key ids. -/
structure Showtime where
  id : Nat
  start_time : Int
  end_time : Int
  price : Int
  sold_tickets : Int
  movie_id : Nat
  theater_id : Nat
  deriving Repr, DecidableEq

/-- `TicketStatus` enum from `ticket.entity.ts`. -/
inductive TicketStatus where
  | reserved
  | purchased
  | cancelled
  deriving Repr, DecidableEq

/-- `tickets` table: `ticket.entity.ts`.  The `showtime` relation is modelled
by the foreign-key id (`showtime_id` column, NOT NULL in the migration). -/
structure Ticket where
  id : Nat
  customer_name : String
  customer_email : String
  seat_number : String
  status : TicketStatus
  price : Int
  showtime_id : Nat
  deriving Repr, DecidableEq

/-- The database state: one list of rows per table. -/
structure DB where
  movies : List Movie
  theaters : List Theater
  showtimes : List Showtime
  tickets : List Ticket
  deriving Repr, DecidableEq

/-! ## String helpers (JS `trim`, `toUpperCase`, `toLowerCase`, and the two
validation regexes of `tickets.service.ts`) -/

/-- Drop leading whitespace characters. -/
def dropLeadingWs : List Char → List Char
  | [] => []
  | c :: rest => if c.isWhitespace then dropLeadingWs rest else c :: rest

/-- JS `String.prototype.trim`: drop whitespace from both ends. -/
def jsTrim (s : String) : String :=
  ⟨(dropLeadingWs (dropLeadingWs s.data).reverse).reverse⟩

/-- JS `String.prototype.toUpperCase` (ASCII behaviour). -/
def jsToUpper (s : String) : String := ⟨s.data.map Char.toUpper⟩

/-- JS `String.prototype.toLowerCase` (ASCII behaviour). -/
def jsToLower (s : String) : String := ⟨s.data.map Char.toLower⟩

/-- An ASCII upper-case letter, the `[A-Z]` character class. -/
def isAsciiUpper (c : Char) : Bool := 'A' ≤ c && c ≤ 'Z'

/-- One to three decimal digits, anchored at the end of the string. -/
def seatDigits : List Char → Bool
  | [a] => a.isDigit
  | [a, b] => a.isDigit && b.isDigit
  | [a, b, c] => a.isDigit && b.isDigit && c.isDigit
  | _ => false

/-- One or two upper-case letters, a hyphen, then one to three digits,
anchored at both ends: the seat-number regex of `isValidSeatNumber`. -/
def seatPattern : List Char → Bool
  | a :: '-' :: rest => isAsciiUpper a && seatDigits rest
  | a :: b :: '-' :: rest => isAsciiUpper a && isAsciiUpper b && seatDigits rest
  | _ => false

/-- `tickets.service.ts` `isValidSeatNumber`: the anchored seat regex tested
against `seatNumber.toUpperCase()` — note: the raw argument is upper-cased but
NOT trimmed before the test. -/
def isValidSeatNumber (s : String) : Bool := seatPattern (jsToUpper s).data

/-- A character allowed by the regex class excluding whitespace and `@`. -/
def emailChar (c : Char) : Bool := !c.isWhitespace && c != '@'

/-- Split a character list at its first `@`, if any. -/
def splitAtAt : List Char → Option (List Char × List Char)
  | [] => none
  | '@' :: rest => some ([], rest)
  | c :: rest => (splitAtAt rest).map (fun p => (c :: p.1, p.2))

/-- Is there a `'.'` that is neither the first nor the last character?  This
is what the anchored pattern of one-or-more class characters, a literal dot,
then one-or-more class characters requires of the domain part, given that all
its characters are in the class (which itself admits dots). -/
def hasDotNotLast : List Char → Bool
  | [] => false
  | [_] => false
  | '.' :: _ :: _ => true
  | _ :: rest => hasDotNotLast rest

/-- Domain part: at least one class character, a dot, at least one more. -/
def hasDotSplit : List Char → Bool
  | [] => false
  | _ :: rest => hasDotNotLast rest

/-- `tickets.service.ts` `isValidEmail`: the email regex — a nonempty run of
non-whitespace non-`@` characters, one `@`, then a nonempty domain containing
an interior dot, anchored at both ends. -/
def isValidEmail (s : String) : Bool :=
  match splitAtAt s.data with
  | none => false
  | some (loc, dom) =>
    !loc.isEmpty && loc.all emailChar && !dom.isEmpty && dom.all emailChar
      && hasDotSplit dom

/-! ## Error taxonomy

One constructor per distinct throw site reached by the embedded operations.
`undefinedRelation` models the TypeScript runtime `TypeError` that accessing a
field of a missing relation would raise (also rolling back the transaction).
The service-level `catch` in `cancelTicket` re-wraps repository errors in a
`BadRequestException` carrying the same message, which preserves the error
identity modelled here. -/
inductive Err where
  | showtimeNotFound (id : Nat)
  | ticketNotFound (id : Nat)
  | movieNotFound (id : Nat)
  | theaterNotFound (id : Nat)
  | pastOrOngoingShowtime
  | invalidEmailFormat
  | invalidSeatFormat
  | soldOut
  | seatTaken (seat : String)
  | cannotCancelPastShowtime
  | onlyPurchasedCanBeCancelled
  | cannotUpdatePastShowtime
  | alreadyStarted
  | pastDate
  | schedulingConflict
  | theaterNotActive
  | undefinedRelation
  deriving Repr, DecidableEq

/-! ## Event traces for the lock-ordering claims -/

/-- Abstract events of the purchase and cancel flows, in the order the
corresponding statements appear in `tickets.service.ts` and
`ticket.repository.ts`. -/
inductive Ev where
  | readShowtimeNoLock    -- service: `findWithRelations` before the transaction
  | checkStartTime        -- service: `start_time <= now` guard (purchase)
  | checkEmailFormat      -- service: `isValidEmail` guard
  | checkSeatFormat       -- service: `isValidSeatNumber` guard
  | lockShowtime          -- repo tx: `findOne` with `pessimistic_write` lock
  | readShowtimeLocked    -- repo tx: re-read with `theater`/`movie` relations
  | checkCapacity         -- repo tx: `sold_tickets >= capacity` guard
  | checkSeatOccupied     -- repo tx: `findOne` existing Purchased seat guard
  | insertTicket          -- repo tx: `manager.save(ticket)`
  | incrementCounter      -- repo tx: `manager.increment(..., 'sold_tickets', 1)`
  | readbackTicket        -- repo tx: final `findOne` of the saved ticket
  | readTicketNoLock      -- cancel service: `findWithShowtimeDetails`
  | checkCancelStartTime  -- cancel service: `start_time <= now` guard
  | checkCancelStatus     -- cancel service: `status !== PURCHASED` guard
  | readTicketTx          -- cancel tx: `findOne` ticket with relations (NO lock)
  | checkStatusTx         -- cancel tx: `status !== PURCHASED` guard
  | updateStatusCancelled -- cancel tx: `manager.update(..., CANCELLED)`
  | decrementCounter      -- cancel tx: `manager.decrement(..., 'sold_tickets', 1)`
  deriving Repr, DecidableEq

/-! ## Row lookups and row updates (TypeORM `findOne`, `increment`,
`decrement`, `update`, `save`) -/

/-- `findOne(Showtime, where id)` — first row with the given id. -/
def findShowtime (db : DB) (id : Nat) : Option Showtime :=
  db.showtimes.find? (fun s => s.id == id)

/-- `findOne(Theater, where id)` / loading the `theater` relation. -/
def findTheater (db : DB) (id : Nat) : Option Theater :=
  db.theaters.find? (fun t => t.id == id)

/-- `findOne(Movie, where id)`. -/
def findMovie (db : DB) (id : Nat) : Option Movie :=
  db.movies.find? (fun m => m.id == id)

/-- `findOne(Ticket, where id)`. -/
def findTicket (db : DB) (id : Nat) : Option Ticket :=
  db.tickets.find? (fun t => t.id == id)

/-- `findByShowtimeAndSeat` / the in-transaction occupied-seat query:
`findOne(Ticket, where showtime.id, seat_number, status = PURCHASED)`. -/
def seatOccupied (db : DB) (showtimeId : Nat) (seat : String) : Option Ticket :=
  db.tickets.find? (fun t =>
    t.showtime_id == showtimeId && t.seat_number == seat
      && t.status == TicketStatus.purchased)

/-- `manager.increment(Showtime, criteria id, sold_tickets, 1)`: adds 1 to
`sold_tickets` of every showtime row matching the id criteria. -/
def incrementSold (db : DB) (showtimeId : Nat) : DB :=
  { db with showtimes := db.showtimes.map (fun s =>
      if s.id == showtimeId then { s with sold_tickets := s.sold_tickets + 1 } else s) }

/-- `manager.decrement(Showtime, criteria id, sold_tickets, 1)`. -/
def decrementSold (db : DB) (showtimeId : Nat) : DB :=
  { db with showtimes := db.showtimes.map (fun s =>
      if s.id == showtimeId then { s with sold_tickets := s.sold_tickets - 1 } else s) }

/-- "Is a Purchased ticket of the given showtime" — the row predicate of
`countTicketsByShowtime` and of the counter-consistency invariant. -/
def pTick (showtimeId : Nat) (t : Ticket) : Bool :=
  t.showtime_id == showtimeId && t.status == TicketStatus.purchased

/-- Number of Purchased tickets of the given showtime
(`countTicketsByShowtime`, and the right-hand side of the counter-consistency
invariant). -/
def purchasedCount (db : DB) (showtimeId : Nat) : Nat :=
  db.tickets.countP (pTick showtimeId)

/-- Counter-consistency invariant of the spec, as an executable predicate:
every showtime row's `sold_tickets` equals the number of its Purchased
tickets. -/
def consistentB (db : DB) : Bool :=
  db.showtimes.all (fun s => s.sold_tickets == (purchasedCount db s.id : Int))

/-- Seat-uniqueness invariant of the spec, as an executable predicate: the
seat numbers of the Purchased tickets of the given showtime are pairwise
distinct. -/
def seatsDistinctB (db : DB) (showtimeId : Nat) : Bool :=
  (((db.tickets.filter (fun t =>
      t.showtime_id == showtimeId && t.status == TicketStatus.purchased)).map
        Ticket.seat_number)).Nodup

/-! ## `TicketsRepository.purchaseTicketWithTransaction`
(`ticket.repository.ts`, lines 151–219)

`newId` stands for the uuid the database generates for the inserted row.
The function returns the event trace of the statements it executed together
with the transaction's result. -/

/-- Ticket data prepared by the service (name, email, seat, already
normalized there). -/
structure TicketData where
  customer_name : String
  customer_email : String
  seat_number : String
  deriving Repr, DecidableEq

/-- The inserted ticket row: `manager.create(Ticket, {...ticketData,
showtime: {id}, status: PURCHASED, price: showtime.price})`. -/
def mkPurchasedTicket (td : TicketData) (showtimeId : Nat) (price : Int)
    (newId : Nat) : Ticket :=
  { id := newId
    customer_name := td.customer_name
    customer_email := td.customer_email
    seat_number := td.seat_number
    status := TicketStatus.purchased
    price := price
    showtime_id := showtimeId }

/-- `purchaseTicketWithTransaction`, instrumented with its event trace.
Order of statements, from the source: lock the showtime row
(`pessimistic_write`), re-read it with the `theater`/`movie` relations, check
`sold_tickets >= theater.capacity` (SoldOut), check for an existing Purchased
ticket on the same seat (SeatTaken), insert the ticket, increment
`sold_tickets` by 1, re-read the saved ticket. -/
def purchaseTicketWithTransaction (db : DB) (showtimeId : Nat) (td : TicketData)
    (newId : Nat) : List Ev × Except Err (DB × Ticket) :=
  match findShowtime db showtimeId with
  | none => ([Ev.lockShowtime], .error (Err.showtimeNotFound showtimeId))
  | some _lockedShowtime =>
    match findShowtime db showtimeId with
    | none =>
      ([Ev.lockShowtime, Ev.readShowtimeLocked],
        .error (Err.showtimeNotFound showtimeId))
    | some showtime =>
      match findTheater db showtime.theater_id with
      | none =>
        ([Ev.lockShowtime, Ev.readShowtimeLocked], .error Err.undefinedRelation)
      | some theater =>
        if showtime.sold_tickets ≥ theater.capacity then
          ([Ev.lockShowtime, Ev.readShowtimeLocked, Ev.checkCapacity],
            .error Err.soldOut)
        else
          match seatOccupied db showtimeId td.seat_number with
          | some _ =>
            ([Ev.lockShowtime, Ev.readShowtimeLocked, Ev.checkCapacity,
              Ev.checkSeatOccupied], .error (Err.seatTaken td.seat_number))
          | none =>
            let ticket := mkPurchasedTicket td showtimeId showtime.price newId
            let db1 : DB := { db with tickets := db.tickets ++ [ticket] }
            let db2 := incrementSold db1 showtimeId
            match findTicket db2 newId with
            | none =>
              ([Ev.lockShowtime, Ev.readShowtimeLocked, Ev.checkCapacity,
                Ev.checkSeatOccupied, Ev.insertTicket, Ev.incrementCounter,
                Ev.readbackTicket], .error Err.undefinedRelation)
            | some completeTicket =>
              ([Ev.lockShowtime, Ev.readShowtimeLocked, Ev.checkCapacity,
                Ev.checkSeatOccupied, Ev.insertTicket, Ev.incrementCounter,
                Ev.readbackTicket], .ok (db2, completeTicket))

/-! ## `TicketsService.purchaseTicket` (`tickets.service.ts`, lines 26–73) -/

/-- `PurchaseTicketDto` (raw client input). -/
structure PurchaseTicketDto where
  customer_name : String
  customer_email : String
  seat_number : String
  deriving Repr, DecidableEq

/-- `TicketsService.purchaseTicket`, instrumented with its event trace.
Order of statements, from the source: read the showtime (no lock), reject
past/ongoing showtimes, validate email format, validate seat format on the
RAW (upper-cased, untrimmed) input, normalize the ticket data (name trimmed,
email lower-cased then trimmed, seat trimmed then upper-cased), then hand off
to `purchaseTicketWithTransaction`. -/
def purchaseTicket (db : DB) (now : Int) (showtimeId : Nat)
    (dto : PurchaseTicketDto) (newId : Nat) : List Ev × Except Err (DB × Ticket) :=
  match findShowtime db showtimeId with
  | none => ([Ev.readShowtimeNoLock], .error (Err.showtimeNotFound showtimeId))
  | some showtime =>
    if showtime.start_time ≤ now then
      ([Ev.readShowtimeNoLock, Ev.checkStartTime], .error Err.pastOrOngoingShowtime)
    else if !isValidEmail dto.customer_email then
      ([Ev.readShowtimeNoLock, Ev.checkStartTime, Ev.checkEmailFormat],
        .error Err.invalidEmailFormat)
    else if !isValidSeatNumber dto.seat_number then
      ([Ev.readShowtimeNoLock, Ev.checkStartTime, Ev.checkEmailFormat,
        Ev.checkSeatFormat], .error Err.invalidSeatFormat)
    else
      let td : TicketData :=
        { customer_name := jsTrim dto.customer_name
          customer_email := jsTrim (jsToLower dto.customer_email)
          seat_number := jsToUpper (jsTrim dto.seat_number) }
      let r := purchaseTicketWithTransaction db showtimeId td newId
      ([Ev.readShowtimeNoLock, Ev.checkStartTime, Ev.checkEmailFormat,
        Ev.checkSeatFormat] ++ r.1, r.2)

/-! ## `TicketsRepository.cancelTicketWithTransaction`
(`ticket.repository.ts`, lines 222–258)

The ticket is loaded with a plain `findOne` — the source passes NO `lock`
option here, so no `lockShowtime` event is ever emitted by this function. -/

/-- Set `status = CANCELLED` on every ticket row matching the id criteria
(`manager.update(Ticket, criteria id, status CANCELLED)`). -/
def markCancelled (db : DB) (ticketId : Nat) : DB :=
  { db with tickets := db.tickets.map (fun t =>
      if t.id == ticketId then { t with status := TicketStatus.cancelled } else t) }

/-- `cancelTicketWithTransaction`, instrumented with its event trace. -/
def cancelTicketWithTransaction (db : DB) (ticketId : Nat) :
    List Ev × Except Err (DB × Ticket) :=
  match findTicket db ticketId with
  | none => ([Ev.readTicketTx], .error (Err.ticketNotFound ticketId))
  | some ticket =>
    if ticket.status ≠ TicketStatus.purchased then
      ([Ev.readTicketTx, Ev.checkStatusTx], .error Err.onlyPurchasedCanBeCancelled)
    else
      let db1 := markCancelled db ticketId
      let db2 := decrementSold db1 ticket.showtime_id
      match findTicket db2 ticketId with
      | none =>
        ([Ev.readTicketTx, Ev.checkStatusTx, Ev.updateStatusCancelled,
          Ev.decrementCounter, Ev.readbackTicket], .error Err.undefinedRelation)
      | some updated =>
        ([Ev.readTicketTx, Ev.checkStatusTx, Ev.updateStatusCancelled,
          Ev.decrementCounter, Ev.readbackTicket], .ok (db2, updated))

/-! ## `TicketsService.cancelTicket` (`tickets.service.ts`, lines 197–223) -/

/-- `TicketsService.cancelTicket`, instrumented with its event trace.  Order
of statements, from the source: load the ticket with showtime details (no
lock), reject past/ongoing showtimes FIRST, then reject non-Purchased
tickets, then run the repository transaction (whose errors the service
re-wraps in a `BadRequestException` with the same message). -/
def cancelTicket (db : DB) (now : Int) (ticketId : Nat) :
    List Ev × Except Err (DB × Ticket) :=
  match findTicket db ticketId with
  | none => ([Ev.readTicketNoLock], .error (Err.ticketNotFound ticketId))
  | some ticket =>
    match findShowtime db ticket.showtime_id with
    | none => ([Ev.readTicketNoLock], .error Err.undefinedRelation)
    | some showtime =>
      if showtime.start_time ≤ now then
        ([Ev.readTicketNoLock, Ev.checkCancelStartTime],
          .error Err.cannotCancelPastShowtime)
      else if ticket.status ≠ TicketStatus.purchased then
        ([Ev.readTicketNoLock, Ev.checkCancelStartTime, Ev.checkCancelStatus],
          .error Err.onlyPurchasedCanBeCancelled)
      else
        let r := cancelTicketWithTransaction db ticketId
        ([Ev.readTicketNoLock, Ev.checkCancelStartTime, Ev.checkCancelStatus]
          ++ r.1, r.2)

/-! ## `TicketsService.findByCustomerEmail` (`tickets.service.ts`,
lines 98–107) and the repository query it calls -/

/-- `TicketsRepository.findByCustomerEmail`: all tickets whose
`customer_email` equals the argument (the `created_at DESC` ordering has no
bearing on the claims and is not modelled). -/
def findByCustomerEmailRepo (db : DB) (email : String) : List Ticket :=
  db.tickets.filter (fun t => t.customer_email == email)

/-- `TicketsService.findByCustomerEmail`: validates the RAW argument against
the email regex, then queries with the lower-cased-then-trimmed argument. -/
def findByCustomerEmail (db : DB) (email : String) : Except Err (List Ticket) :=
  if !isValidEmail email then .error Err.invalidEmailFormat
  else .ok (findByCustomerEmailRepo db (jsTrim (jsToLower email)))

/-! ## `TicketsService.update` (`tickets.service.ts`, lines 129–195) -/

/-- `UpdateTicketDto`: all fields optional; it also carries an optional
`status` (the DTO extends the create DTO with a `status?: TicketStatus`
field, which the service passes through to the repository unchecked).  The
DTO's optional `showtime_id` is not a `Ticket` column and is not modelled. -/
structure UpdateTicketDto where
  customer_name : Option String
  customer_email : Option String
  seat_number : Option String
  status : Option TicketStatus
  deriving Repr, DecidableEq

/-- Apply the (already normalized) DTO fields to a ticket row, as
`ticketRepository.update(id, ticketData)` does. -/
def applyTicketUpdate (t : Ticket) (dto : UpdateTicketDto) : Ticket :=
  { t with
    customer_name := dto.customer_name.getD t.customer_name
    customer_email := dto.customer_email.getD t.customer_email
    seat_number := dto.seat_number.getD t.seat_number
    status := dto.status.getD t.status }

/-- `TicketsService.update`.  Order of statements, from the source: load the
ticket (twice — `findById` then `findWithShowtimeDetails`), reject
past/ongoing showtimes, and — only when a seat is supplied AND differs from
the existing RAW seat — query seat occupancy with the RAW (un-normalized) new
seat, then validate its format; validate and normalize the email if supplied;
finally normalize name (trim) and seat (trim then upper-case) and write all
supplied fields (including `status`) through the repository. -/
def updateTicket (db : DB) (now : Int) (ticketId : Nat) (dto : UpdateTicketDto) :
    Except Err (DB × Ticket) :=
  match findTicket db ticketId with
  | none => .error (Err.ticketNotFound ticketId)
  | some existingTicket =>
    match findShowtime db existingTicket.showtime_id with
    | none => .error Err.undefinedRelation
    | some showtime =>
      if showtime.start_time ≤ now then .error Err.cannotUpdatePastShowtime
      else
        let seatCheck : Except Err Unit :=
          match dto.seat_number with
          | none => .ok ()
          | some s =>
            if s ≠ existingTicket.seat_number then
              match seatOccupied db showtime.id s with
              | some _ => .error (Err.seatTaken s)
              | none =>
                if !isValidSeatNumber s then .error Err.invalidSeatFormat
                else .ok ()
            else .ok ()
        match seatCheck with
        | .error e => .error e
        | .ok () =>
          match dto.customer_email with
          | some e =>
            if !isValidEmail e then .error Err.invalidEmailFormat
            else
              let dto' : UpdateTicketDto :=
                { dto with
                  customer_email := some (jsTrim (jsToLower e))
                  customer_name := dto.customer_name.map jsTrim
                  seat_number := dto.seat_number.map (fun s => jsToUpper (jsTrim s)) }
              let db' : DB := { db with tickets := db.tickets.map (fun t =>
                if t.id == ticketId then applyTicketUpdate t dto' else t) }
              match findTicket db' ticketId with
              | none => .error (Err.ticketNotFound ticketId)
              | some updated => .ok (db', updated)
          | none =>
            let dto' : UpdateTicketDto :=
              { dto with
                customer_name := dto.customer_name.map jsTrim
                seat_number := dto.seat_number.map (fun s => jsToUpper (jsTrim s)) }
            let db' : DB := { db with tickets := db.tickets.map (fun t =>
              if t.id == ticketId then applyTicketUpdate t dto' else t) }
            match findTicket db' ticketId with
            | none => .error (Err.ticketNotFound ticketId)
            | some updated => .ok (db', updated)

/-! ## `ShowtimesRepository.findConflictingShowtime`
(`showtime.repository.ts`, lines 75–98) -/

/-- The query: showtimes of the given theater with
`start_time < :endTime AND end_time > :startTime`, excluding `excludeId`
when supplied; `getOne` returns the first match. -/
def findConflictingShowtime (db : DB) (theaterId : Nat)
    (startTime endTime : Int) (excludeId : Option Nat) : Option Showtime :=
  db.showtimes.find? (fun s =>
    s.theater_id == theaterId
      && decide (s.start_time < endTime) && decide (s.end_time > startTime)
      && (match excludeId with
          | none => true
          | some ex => s.id != ex))

/-! ## `ShowtimesService.update` (`showtimes.service.ts`, lines 118–206) -/

/-- `UpdateShowtimeDto` (all fields optional). -/
structure UpdateShowtimeDto where
  movie_id : Option Nat
  theater_id : Option Nat
  start_time : Option Int
  price : Option Int
  deriving Repr, DecidableEq

/-- Apply the computed update data to a showtime row. -/
def applyShowtimeUpdate (s : Showtime) (dto : UpdateShowtimeDto)
    (endTime : Option Int) : Showtime :=
  { s with
    movie_id := dto.movie_id.getD s.movie_id
    theater_id := dto.theater_id.getD s.theater_id
    start_time := dto.start_time.getD s.start_time
    end_time := endTime.getD s.end_time
    price := dto.price.getD s.price }

/-- `ShowtimesService.update`.  Order of statements, from the source: load
the showtime with relations, reject if it has already started, reject a new
start time in the past, and — ONLY when `movie_id` or `start_time` is
supplied (the guard on line 152 does NOT test `theater_id`) — recompute the
end time from the movie duration and run the self-excluded conflict check
against the target theater; then validate a supplied theater; finally persist
the update. -/
def updateShowtime (db : DB) (now : Int) (id : Nat) (dto : UpdateShowtimeDto) :
    Except Err (DB × Showtime) :=
  match findShowtime db id with
  | none => .error (Err.showtimeNotFound id)
  | some existingShowtime =>
    if existingShowtime.start_time ≤ now then .error Err.alreadyStarted
    else if (match dto.start_time with
             | some t => decide (t < now)
             | none => false) then .error Err.pastDate
    else
      let conflictStep : Except Err (Option Int) :=
        if dto.movie_id.isSome || dto.start_time.isSome then
          let movieId := dto.movie_id.getD existingShowtime.movie_id
          match findMovie db movieId with
          | none => .error (Err.movieNotFound movieId)
          | some movie =>
            let startTime := dto.start_time.getD existingShowtime.start_time
            let endTime := startTime + movie.duration
            let theaterId := dto.theater_id.getD existingShowtime.theater_id
            match findConflictingShowtime db theaterId startTime endTime (some id) with
            | some _ => .error Err.schedulingConflict
            | none => .ok (some endTime)
        else .ok none
      match conflictStep with
      | .error e => .error e
      | .ok endTime =>
        let theaterStep : Except Err Unit :=
          match dto.theater_id with
          | none => .ok ()
          | some tid =>
            match findTheater db tid with
            | none => .error (Err.theaterNotFound tid)
            | some theater =>
              if !theater.is_active then .error Err.theaterNotActive else .ok ()
        match theaterStep with
        | .error e => .error e
        | .ok () =>
          let db' : DB := { db with showtimes := db.showtimes.map (fun s =>
            if s.id == id then applyShowtimeUpdate s dto endTime else s) }
          match findShowtime db' id with
          | none => .error (Err.showtimeNotFound id)
          | some updated => .ok (db', updated)

/-! ## Lock-ordering scanner for the event traces -/

/-- One step of the lock-discipline scanner: given whether the per-showtime
pessimistic lock is currently held, process one event.  `none` means the
discipline is violated — a locked re-read, capacity check or seat-occupancy
check while the lock is not held, or a pre-transaction start-time check while
it is; otherwise the new lock state is returned. -/
def lockStep (locked : Bool) : Ev → Option Bool
  | Ev.lockShowtime => some true
  | Ev.readShowtimeLocked => if locked then some locked else none
  | Ev.checkCapacity => if locked then some locked else none
  | Ev.checkSeatOccupied => if locked then some locked else none
  | Ev.checkStartTime => if locked then none else some locked
  | _ => some locked

/-- Scan an event trace left to right with `lockStep`; `some` means the whole
trace respects the lock discipline. -/
def lockScan (locked : Bool) : List Ev → Option Bool
  | [] => some locked
  | e :: rest => (lockStep locked e).bind (fun l => lockScan l rest)

/-! ## Concrete database states used by witnesses and counterexamples -/

/-- A theater with capacity 2. -/
def exTheater : Theater := { id := 1, capacity := 2, is_active := true }

/-- A 10-minute movie. -/
def exMovie : Movie := { id := 1, duration := 10 }

/-- A future showtime (times are abstract instants; `now` is taken < 100 for
"future" scenarios and ≥ 100 for "already started" ones). -/
def exShowtime : Showtime :=
  { id := 1, start_time := 100, end_time := 110, price := 5,
    sold_tickets := 0, movie_id := 1, theater_id := 1 }

/-- Empty-auditorium base state. -/
def exDB : DB :=
  { movies := [exMovie], theaters := [exTheater],
    showtimes := [exShowtime], tickets := [] }

/-- A well-formed purchase request (raw, un-normalized client input). -/
def exDto : PurchaseTicketDto :=
  { customer_name := " N ", customer_email := "A@B.C", seat_number := "a-1" }

/-- Normalized ticket data as the service hands it to the repository. -/
def exTd2 : TicketData :=
  { customer_name := "M", customer_email := "m@b.c", seat_number := "B-2" }

/-- State whose showtime is sold out (sold = capacity = 2). -/
def dbFull : DB :=
  { exDB with showtimes := [{ exShowtime with sold_tickets := 2 }] }

/-- A Purchased ticket on seat `A-1` of the showtime. -/
def exTicket : Ticket :=
  { id := 1, customer_name := "N", customer_email := "a@b.c",
    seat_number := "A-1", status := TicketStatus.purchased, price := 5,
    showtime_id := 1 }

/-- State with one sold ticket and a consistent counter. -/
def exDBsold : DB :=
  { exDB with
    showtimes := [{ exShowtime with sold_tickets := 1 }]
    tickets := [exTicket] }

/-- A second Purchased ticket, on seat `B-2`. -/
def exTicket2 : Ticket :=
  { id := 2, customer_name := "M", customer_email := "m@b.c",
    seat_number := "B-2", status := TicketStatus.purchased, price := 5,
    showtime_id := 1 }

/-- State with two Purchased tickets (`A-1`, `B-2`) and a consistent
counter. -/
def db5 : DB :=
  { exDB with
    showtimes := [{ exShowtime with sold_tickets := 2 }]
    tickets := [exTicket, exTicket2] }

/-- Ticket update that only changes the seat, spelled in lower case. -/
def dto5 : UpdateTicketDto :=
  { customer_name := none, customer_email := none,
    seat_number := some "a-1", status := none }

/-- A second active theater. -/
def exTheater2 : Theater := { id := 2, capacity := 5, is_active := true }

/-- A showtime in theater 2 over the same interval as `exShowtime`. -/
def exShowtimeB : Showtime :=
  { id := 2, start_time := 100, end_time := 110, price := 5,
    sold_tickets := 0, movie_id := 1, theater_id := 2 }

/-- State with one showtime in each of two theaters, same interval. -/
def db7 : DB :=
  { movies := [exMovie], theaters := [exTheater, exTheater2],
    showtimes := [exShowtime, exShowtimeB], tickets := [] }

/-- Showtime update that changes only the theater. -/
def dto7 : UpdateShowtimeDto :=
  { movie_id := none, theater_id := some 2, start_time := none, price := none }

/-- State with a single already-Cancelled ticket. -/
def dbC8 : DB :=
  { exDB with tickets := [{ exTicket with status := TicketStatus.cancelled }] }

/-- Purchase request whose seat has surrounding whitespace. -/
def dto9 : PurchaseTicketDto :=
  { customer_name := "N", customer_email := "a@b.c", seat_number := "  a-1  " }

/-! ## Lock-discipline lemmas shared by the temporal claims -/

/-- `lockScan` distributes over trace concatenation. -/
theorem lockScan_append (b : Bool) (l1 l2 : List Ev) :
    lockScan b (l1 ++ l2) = (lockScan b l1).bind (fun b' => lockScan b' l2) := by
  induction l1 generalizing b with
  | nil => simp [lockScan]
  | cons e rest ih => simp [lockScan, ih, Option.bind_assoc]

/-- Every execution of the purchase transaction acquires the pessimistic lock
as its first action and performs its re-read and checks only afterwards. -/
theorem lockScan_purchaseTx (db : DB) (sid : Nat) (td : TicketData) (nid : Nat) :
    lockScan false (purchaseTicketWithTransaction db sid td nid).1 = some true := by
  unfold purchaseTicketWithTransaction
  repeat' split
  all_goals try rfl
  all_goals dsimp only
  all_goals split <;> rfl

/-- No execution of the cancel transaction emits a lock acquisition. -/
theorem cancelTx_no_lock (db : DB) (tid : Nat) :
    (cancelTicketWithTransaction db tid).1.all
      (fun e => e != Ev.lockShowtime) = true := by
  unfold cancelTicketWithTransaction
  repeat' split
  all_goals try rfl
  all_goals dsimp only
  all_goals split <;> rfl

/-! ## List helper lemmas about the row operations -/

/-- `find?` by id commutes with a map that preserves ids (showtime rows). -/
theorem findShowtime_map (g : Showtime → Showtime) (hg : ∀ s, (g s).id = s.id)
    (l : List Showtime) (sid : Nat) :
    (l.map g).find? (fun s => s.id == sid)
      = (l.find? (fun s => s.id == sid)).map g := by
  induction l with
  | nil => rfl
  | cons a l ih =>
    by_cases h : (a.id == sid) = true
    · simp [List.find?_cons, hg, h]
    · simp only [Bool.not_eq_true] at h
      simp [List.find?_cons, hg, h, ih]

/-- `find?` by id commutes with a map that preserves ids (ticket rows). -/
theorem findTicket_map (g : Ticket → Ticket) (hg : ∀ t, (g t).id = t.id)
    (l : List Ticket) (tid : Nat) :
    (l.map g).find? (fun t => t.id == tid)
      = (l.find? (fun t => t.id == tid)).map g := by
  induction l with
  | nil => rfl
  | cons a l ih =>
    by_cases h : (a.id == tid) = true
    · simp [List.find?_cons, hg, h]
    · simp only [Bool.not_eq_true] at h
      simp [List.find?_cons, hg, h, ih]

/-- Looking up a freshly appended row by its id finds exactly that row. -/
theorem findTicket_append_fresh (l : List Ticket) (t : Ticket) (nid : Nat)
    (ht : t.id = nid) (hl : ∀ x ∈ l, x.id ≠ nid) :
    (l ++ [t]).find? (fun x => x.id == nid) = some t := by
  induction l with
  | nil => simp [List.find?, ht]
  | cons a l ih =>
    have ha : (a.id == nid) = false := by
      simpa using hl a (by simp)
    simp only [List.cons_append, List.find?_cons, ha]
    exact ih (fun x hx => hl x (by simp [hx]))

/-- With no duplicate ids, any member carrying the looked-up id is the row
`find?` returns. -/
theorem mem_eq_of_find?_nodup (l : List Ticket) (tid : Nat) (t x : Ticket)
    (hnd : (l.map Ticket.id).Nodup)
    (hf : l.find? (fun a => a.id == tid) = some t)
    (hx : x ∈ l) (hid : x.id = tid) : x = t := by
  induction l with
  | nil => cases hx
  | cons a l ih =>
    simp only [List.map_cons, List.nodup_cons] at hnd
    by_cases h : (a.id == tid) = true
    · simp only [List.find?_cons, h, if_true] at hf
      have hat : a = t := Option.some.inj hf
      have hae : a.id = tid := by simpa using h
      rcases List.mem_cons.mp hx with hxa | hxl
      · rw [hxa]; exact hat
      · exact absurd (List.mem_map.mpr ⟨x, hxl, hid.trans hae.symm⟩) hnd.1
    · have h' : (a.id == tid) = false := by simpa using h
      simp only [List.find?_cons, h', if_false] at hf
      rcases List.mem_cons.mp hx with hxa | hxl
      · rw [hxa] at hid; simp [hid] at h'
      · exact ih hnd.2 hf hxl

/-- Mapping the cancel-row update over rows none of which carry the target id
changes nothing. -/
theorem map_cancel_noop (l : List Ticket) (tid : Nat)
    (h : ∀ x ∈ l, x.id ≠ tid) :
    l.map (fun x => if x.id == tid
      then { x with status := TicketStatus.cancelled } else x) = l := by
  induction l with
  | nil => rfl
  | cons a l ih =>
    have ha : ¬((a.id == tid) = true) := by simpa using h a (by simp)
    rw [List.map_cons, if_neg ha, ih (fun x hx => h x (by simp [hx]))]

/-- Cancelling the (unique) row with the given id removes exactly one row
from the Purchased count of its showtime and none from any other showtime. -/
theorem countP_markCancelled (l : List Ticket) (tid : Nat) (t : Ticket)
    (sid : Nat)
    (hnd : (l.map Ticket.id).Nodup)
    (hf : l.find? (fun a => a.id == tid) = some t)
    (hp : t.status = TicketStatus.purchased) :
    (l.map (fun x => if x.id == tid
        then { x with status := TicketStatus.cancelled } else x)).countP (pTick sid)
      + (if t.showtime_id = sid then 1 else 0)
      = l.countP (pTick sid) := by
  induction l with
  | nil => cases hf
  | cons a l ih =>
    simp only [List.map_cons, List.nodup_cons] at hnd
    by_cases h : (a.id == tid) = true
    · simp only [List.find?_cons, h, if_true] at hf
      have hat : a = t := Option.some.inj hf
      have hae : a.id = tid := by simpa using h
      subst hat
      have hrest : ∀ x ∈ l, x.id ≠ tid := by
        intro x hx hxe
        exact hnd.1 (List.mem_map.mpr ⟨x, hx, hxe.trans hae.symm⟩)
      have hflip : pTick sid { a with status := TicketStatus.cancelled } = false := by
        have hcp : (TicketStatus.cancelled == TicketStatus.purchased) = false := rfl
        simp [pTick, hcp]
      have horig : pTick sid a = (a.showtime_id == sid) := by
        have hpp : (TicketStatus.purchased == TicketStatus.purchased) = true := rfl
        simp [pTick, hp, hpp]
      rw [List.map_cons, map_cancel_noop l tid hrest, if_pos h,
        List.countP_cons, List.countP_cons, hflip, horig]
      by_cases hs : a.showtime_id = sid
      · have hb : (a.showtime_id == sid) = true := by simpa using hs
        simp [hs, hb]
      · have hb : (a.showtime_id == sid) = false := by simpa using hs
        simp [hs, hb]
    · have h' : (a.id == tid) = false := by simpa using h
      simp only [List.find?_cons, h', if_false] at hf
      rw [List.map_cons, if_neg h, List.countP_cons, List.countP_cons]
      have := ih hnd.2 hf
      omega

/-! ## Inversion and forward lemmas for the two transactions -/

/-- What a committed purchase transaction implies: the showtime and its
theater were found, the capacity check passed, the seat was free, and the new
state is the old one with the new Purchased ticket appended and the
showtime's counter incremented. -/
theorem purchaseTx_ok_inversion (db : DB) (sid : Nat) (td : TicketData)
    (nid : Nat) (db' : DB) (t' : Ticket)
    (h : (purchaseTicketWithTransaction db sid td nid).2 = .ok (db', t')) :
    ∃ st th, findShowtime db sid = some st
      ∧ findTheater db st.theater_id = some th
      ∧ st.sold_tickets < th.capacity
      ∧ seatOccupied db sid td.seat_number = none
      ∧ db' = incrementSold
          { db with tickets :=
              db.tickets ++ [mkPurchasedTicket td sid st.price nid] } sid := by
  unfold purchaseTicketWithTransaction at h
  cases hst : findShowtime db sid with
  | none => rw [hst] at h; exact absurd h (by simp)
  | some st =>
    rw [hst] at h
    dsimp only at h
    cases hth : findTheater db st.theater_id with
    | none => rw [hth] at h; exact absurd h (by simp)
    | some th =>
      rw [hth] at h
      dsimp only at h
      by_cases hcap : st.sold_tickets ≥ th.capacity
      · rw [if_pos hcap] at h; exact absurd h (by simp)
      · rw [if_neg hcap] at h
        cases hseat : seatOccupied db sid td.seat_number with
        | some tk => rw [hseat] at h; exact absurd h (by simp)
        | none =>
          rw [hseat] at h
          dsimp only at h
          cases hct : findTicket (incrementSold { db with tickets :=
              db.tickets ++ [mkPurchasedTicket td sid st.price nid] } sid) nid with
          | none => rw [hct] at h; exact absurd h (by simp)
          | some ct =>
            rw [hct] at h
            dsimp only at h
            simp only [Except.ok.injEq, Prod.mk.injEq] at h
            exact ⟨st, th, rfl, hth, not_le.mp hcap, rfl, h.1.symm⟩

/-- A purchase transaction whose checks all pass commits, appending exactly
the new Purchased ticket and incrementing the counter; with a fresh ticket id
the returned row is that new ticket. -/
theorem purchaseTx_success (db : DB) (sid : Nat) (td : TicketData) (nid : Nat)
    (st : Showtime) (th : Theater)
    (hst : findShowtime db sid = some st)
    (hth : findTheater db st.theater_id = some th)
    (hcap : st.sold_tickets < th.capacity)
    (hseat : seatOccupied db sid td.seat_number = none)
    (hfresh : ∀ x ∈ db.tickets, x.id ≠ nid) :
    (purchaseTicketWithTransaction db sid td nid).2
      = .ok (incrementSold { db with tickets :=
            db.tickets ++ [mkPurchasedTicket td sid st.price nid] } sid,
          mkPurchasedTicket td sid st.price nid) := by
  have hfind : findTicket (incrementSold { db with tickets :=
      db.tickets ++ [mkPurchasedTicket td sid st.price nid] } sid) nid
      = some (mkPurchasedTicket td sid st.price nid) := by
    show (db.tickets ++ [mkPurchasedTicket td sid st.price nid]).find?
        (fun t => t.id == nid) = _
    exact findTicket_append_fresh db.tickets _ nid rfl hfresh
  unfold purchaseTicketWithTransaction
  rw [hst]
  dsimp only
  rw [hth]
  dsimp only
  rw [if_neg (not_le.mpr hcap), hseat]
  dsimp only
  rw [hfind]

/-- What a committed cancel transaction implies: the ticket was found and was
Purchased, and the new state is the old one with that ticket's rows marked
Cancelled and its showtime's counter decremented. -/
theorem cancelTx_ok_inversion (db : DB) (tid : Nat) (db' : DB) (t' : Ticket)
    (h : (cancelTicketWithTransaction db tid).2 = .ok (db', t')) :
    ∃ t, findTicket db tid = some t ∧ t.status = TicketStatus.purchased
      ∧ db' = decrementSold (markCancelled db tid) t.showtime_id := by
  unfold cancelTicketWithTransaction at h
  cases hft : findTicket db tid with
  | none => rw [hft] at h; exact absurd h (by simp)
  | some t =>
    rw [hft] at h
    dsimp only at h
    by_cases hstat : t.status = TicketStatus.purchased
    · rw [if_neg (by simp [hstat])] at h
      try dsimp only at h
      cases hct : findTicket (decrementSold (markCancelled db tid)
          t.showtime_id) tid with
      | none => rw [hct] at h; exact absurd h (by simp)
      | some ct =>
        rw [hct] at h
        dsimp only at h
        simp only [Except.ok.injEq, Prod.mk.injEq] at h
        exact ⟨t, rfl, hstat, h.1.symm⟩
    · rw [if_pos hstat] at h; exact absurd h (by simp)

/-- Service-level cancel inversion: a committed `cancelTicket` found a
Purchased ticket and produced exactly the marked-cancelled, decremented
state. -/
theorem cancel_ok_inversion (db : DB) (now : Int) (tid : Nat) (db' : DB)
    (t' : Ticket)
    (h : (cancelTicket db now tid).2 = .ok (db', t')) :
    ∃ t, findTicket db tid = some t ∧ t.status = TicketStatus.purchased
      ∧ db' = decrementSold (markCancelled db tid) t.showtime_id := by
  unfold cancelTicket at h
  cases hft : findTicket db tid with
  | none => rw [hft] at h; exact absurd h (by simp)
  | some t =>
    rw [hft] at h
    dsimp only at h
    cases hshow : findShowtime db t.showtime_id with
    | none => rw [hshow] at h; exact absurd h (by simp)
    | some stw =>
      rw [hshow] at h
      dsimp only at h
      by_cases htime : stw.start_time ≤ now
      · rw [if_pos htime] at h; exact absurd h (by simp)
      · rw [if_neg htime] at h
        by_cases hstat : t.status = TicketStatus.purchased
        · rw [if_neg (by simp [hstat])] at h
          try dsimp only at h
          obtain ⟨t2, hft2, hstat2, hdb2⟩ := cancelTx_ok_inversion db tid db' t' h
          rw [hft] at hft2
          exact ⟨t2, hft2, hstat2, hdb2⟩
        · rw [if_pos hstat] at h; exact absurd h (by simp)

/-! ## Claim C2 -/

/-- C2 (counterexample): the claim says every read-and-check of the spec's
steps 2–5 — including the start-time-in-the-future validation — executes only
after the per-showtime lock is held.  In this concrete execution (a purchase
against a showtime whose start time 100 is ≤ now = 200) the start-time
validation executes, the run ends, and no lock is ever acquired: the
validation ran before (indeed, without) the lock. -/
theorem claim2_counterexample :
    (purchaseTicket exDB 200 1 exDto 7).1
        = [Ev.readShowtimeNoLock, Ev.checkStartTime]
      ∧ (purchaseTicket exDB 200 1 exDto 7).1.all
          (fun e => e != Ev.lockShowtime) = true := by
  decide

/-- C2 (amended): in every execution of the purchase operation, the
re-read of `sold_tickets`/`capacity`, the capacity validation and the
seat-occupancy validation execute only after the exclusive per-showtime lock
is acquired, while the start-time validation executes only before the lock is
acquired (it runs in the service, outside the transaction): `lockScan`
accepts every purchase trace. -/
theorem claim2_lock_discipline (db : DB) (now : Int) (sid : Nat)
    (dto : PurchaseTicketDto) (nid : Nat) :
    (lockScan false (purchaseTicket db now sid dto nid).1).isSome = true := by
  unfold purchaseTicket
  split
  · rfl
  · split
    · rfl
    · split
      · rfl
      · split
        · rfl
        · rw [lockScan_append]
          simp [lockScan, lockStep, lockScan_purchaseTx]

/-! ## Claim C3 -/

/-- C3 (counterexample): the claim says cancel loads the ticket and its
showtime under an exclusive lock scoped to the showtime, with the same
granularity as purchase.  This concrete cancel execution commits successfully
(`.toOption.isSome`), yet its event trace contains no lock acquisition at
all: the repository's `findOne` carries no `lock` option. -/
theorem claim3_counterexample :
    ((cancelTicket exDBsold 0 1).2.toOption.isSome = true)
      ∧ (cancelTicket exDBsold 0 1).1.all
          (fun e => e != Ev.lockShowtime) = true := by
  decide

/-- C3 (amended): the cancel operation loads the ticket and its showtime
inside a transaction but WITHOUT acquiring any showtime-scoped pessimistic
lock — no execution of `cancelTicket` ever emits a lock acquisition — so a
cancel is not serialized against a concurrent purchase or cancel of the same
showtime by any lock it takes; only its final counter decrement is a single
atomic statement. -/
theorem claim3_cancel_takes_no_lock (db : DB) (now : Int) (tid : Nat) :
    (cancelTicket db now tid).1.all (fun e => e != Ev.lockShowtime) = true := by
  unfold cancelTicket
  split
  · rfl
  · split
    · rfl
    · split
      · rfl
      · split
        · rfl
        · rw [List.all_append]
          simp [cancelTx_no_lock]

/-- Incrementing the counter of the looked-up showtime yields exactly that
row with `sold_tickets + 1` on re-lookup. -/
theorem findShowtime_incrementSold_self (db : DB) (sid : Nat) (st : Showtime)
    (hst : findShowtime db sid = some st) :
    findShowtime (incrementSold db sid) sid
      = some { st with sold_tickets := st.sold_tickets + 1 } := by
  have hst' : db.showtimes.find? (fun s => s.id == sid) = some st := hst
  have hid : (st.id == sid) = true := by
    have h2 := List.find?_some hst'
    simpa using h2
  have hg : ∀ s : Showtime,
      ((fun s : Showtime => if s.id == sid
        then { s with sold_tickets := s.sold_tickets + 1 } else s) s).id = s.id := by
    intro s; dsimp only; split <;> rfl
  show (db.showtimes.map (fun s => if s.id == sid
      then { s with sold_tickets := s.sold_tickets + 1 } else s)).find?
        (fun s => s.id == sid)
      = some { st with sold_tickets := st.sold_tickets + 1 }
  rw [findShowtime_map _ hg db.showtimes sid, hst']
  dsimp only [Option.map]
  rw [if_pos hid]

/-! ## Claim C1 -/

/-- C1: for a showtime whose `sold_tickets` is at most its theater's
capacity, the purchase transaction (a) fails with the sold-out error when
`sold_tickets >= capacity` at the in-transaction check (and, the transaction
rolling back, performs no insert or increment), (b) otherwise — with the seat
free — commits, inserting exactly one Purchased ticket and incrementing
`sold_tickets` by exactly 1, and (c) after any committed purchase the
showtime's counter is `sold_tickets + 1 ≤ capacity`: the counter never
exceeds the capacity. -/
theorem claim1_purchase_capacity (db : DB) (sid : Nat) (td : TicketData)
    (nid : Nat) (st : Showtime) (th : Theater)
    (hst : findShowtime db sid = some st)
    (hth : findTheater db st.theater_id = some th)
    (hfresh : ∀ x ∈ db.tickets, x.id ≠ nid)
    (hbound : st.sold_tickets ≤ th.capacity) :
    (th.capacity ≤ st.sold_tickets →
      (purchaseTicketWithTransaction db sid td nid).2 = .error Err.soldOut)
    ∧ (st.sold_tickets < th.capacity →
        seatOccupied db sid td.seat_number = none →
        ∃ db', (purchaseTicketWithTransaction db sid td nid).2
            = .ok (db', mkPurchasedTicket td sid st.price nid)
          ∧ db'.tickets = db.tickets ++ [mkPurchasedTicket td sid st.price nid]
          ∧ findShowtime db' sid
              = some { st with sold_tickets := st.sold_tickets + 1 })
    ∧ (∀ db' t',
        (purchaseTicketWithTransaction db sid td nid).2 = .ok (db', t') →
        ∃ st', findShowtime db' sid = some st'
          ∧ st'.sold_tickets = st.sold_tickets + 1
          ∧ st'.sold_tickets ≤ th.capacity) := by
  refine ⟨?_, ?_, ?_⟩
  · intro hge
    unfold purchaseTicketWithTransaction
    rw [hst]
    dsimp only
    rw [hth]
    dsimp only
    rw [if_pos hge]
  · intro hlt hseat
    refine ⟨_, purchaseTx_success db sid td nid st th hst hth hlt hseat hfresh,
      rfl, ?_⟩
    exact findShowtime_incrementSold_self
      { db with tickets := db.tickets ++ [mkPurchasedTicket td sid st.price nid] }
      sid st hst
  · intro db' t' hok
    obtain ⟨st2, th2, hst2, hth2, hcap2, _hseat2, hdb⟩ :=
      purchaseTx_ok_inversion db sid td nid db' t' hok
    have hsteq : st2 = st := Option.some.inj (hst2.symm.trans hst)
    rw [hsteq] at hth2 hcap2 hdb
    have htheq : th2 = th := Option.some.inj (hth2.symm.trans hth)
    rw [htheq] at hcap2
    refine ⟨{ st with sold_tickets := st.sold_tickets + 1 }, ?_, rfl,
      by show st.sold_tickets + 1 ≤ th.capacity; omega⟩
    rw [hdb]
    exact findShowtime_incrementSold_self
      { db with tickets := db.tickets ++ [mkPurchasedTicket td sid st.price nid] }
      sid st hst

/-- C1 witness: in a concrete sold-out state (sold = capacity = 2) the
purchase transaction fails with the sold-out error. -/
theorem claim1_witness :
    (purchaseTicketWithTransaction dbFull 1 exTd2 7).2 = .error Err.soldOut := by
  have h := claim1_purchase_capacity dbFull 1 exTd2 7
    { exShowtime with sold_tickets := 2 } exTheater rfl rfl
    (by decide) (by decide)
  exact h.1 (by decide)

/-! ## Claim C4 -/

/-- C4: from a state with unique ticket ids where every showtime's
`sold_tickets` equals its number of Purchased tickets, every committed
purchase transaction (which inserts one Purchased ticket and increments the
counter by 1 in the same transaction) and every committed cancel transaction
(which flips one Purchased ticket to Cancelled and decrements the counter by
1 in the same transaction) re-establishes that equality for every
showtime. -/
theorem claim4_counter_consistency (db : DB)
    (hnd : (db.tickets.map Ticket.id).Nodup)
    (hcons : consistentB db = true) :
    (∀ sid td nid db' t',
        (purchaseTicketWithTransaction db sid td nid).2 = .ok (db', t') →
        consistentB db' = true)
    ∧ (∀ tid db' t',
        (cancelTicketWithTransaction db tid).2 = .ok (db', t') →
        consistentB db' = true) := by
  have hconsP : ∀ s ∈ db.showtimes,
      s.sold_tickets = (purchasedCount db s.id : Int) := by
    intro s hs
    have := List.all_eq_true.mp hcons s hs
    simpa using this
  constructor
  · intro sid td nid db' t' hok
    obtain ⟨st, th, hst, hth, _hcap, _hseat, hdb⟩ :=
      purchaseTx_ok_inversion db sid td nid db' t' hok
    subst hdb
    apply List.all_eq_true.mpr
    intro s' hs'
    have hs'' : s' ∈ db.showtimes.map (fun s => if s.id == sid
        then { s with sold_tickets := s.sold_tickets + 1 } else s) := hs'
    obtain ⟨s, hs, rfl⟩ := List.mem_map.mp hs''
    have hcnt : ∀ x : Nat,
        purchasedCount (incrementSold { db with tickets :=
          db.tickets ++ [mkPurchasedTicket td sid st.price nid] } sid) x
        = purchasedCount db x
          + (if pTick x (mkPurchasedTicket td sid st.price nid) then 1 else 0) := by
      intro x
      show (db.tickets ++ [mkPurchasedTicket td sid st.price nid]).countP (pTick x)
        = _
      rw [List.countP_append]
      simp only [List.countP_cons, List.countP_nil, Nat.zero_add]
      rfl
    have hpt : ∀ x : Nat,
        pTick x (mkPurchasedTicket td sid st.price nid) = (sid == x) := by
      intro x
      have hPP : (TicketStatus.purchased == TicketStatus.purchased) = true := rfl
      simp [pTick, mkPurchasedTicket, hPP]
    by_cases hsid : (s.id == sid) = true
    · have hsideq : s.id = sid := by simpa using hsid
      rw [if_pos hsid]
      have hc := hconsP s hs
      have hcnt' := hcnt s.id
      rw [hpt s.id] at hcnt'
      have hbx : (sid == s.id) = true := by simp [hsideq]
      rw [hbx, if_pos rfl] at hcnt'
      show ((s.sold_tickets + 1 : Int)
        == (purchasedCount (incrementSold { db with tickets :=
          db.tickets ++ [mkPurchasedTicket td sid st.price nid] } sid)
            s.id : Int)) = true
      rw [hcnt']
      simp only [beq_iff_eq, hc]
      push_cast
      ring
    · rw [if_neg hsid]
      have hsidne : s.id ≠ sid := by simpa using hsid
      have hc := hconsP s hs
      have hcnt' := hcnt s.id
      rw [hpt s.id] at hcnt'
      have hbx : (sid == s.id) = false := by
        simpa using fun he => hsidne he.symm
      rw [hbx] at hcnt'
      simp only [Bool.false_eq_true, if_false, Nat.add_zero] at hcnt'
      show ((s.sold_tickets : Int) == (purchasedCount _ s.id : Int)) = true
      rw [hcnt']
      simp only [beq_iff_eq, hc]
  · intro tid db' t' hok
    obtain ⟨t, hft, hstat, hdb⟩ := cancelTx_ok_inversion db tid db' t' hok
    subst hdb
    apply List.all_eq_true.mpr
    intro s' hs'
    have hs'' : s' ∈ db.showtimes.map (fun s => if s.id == t.showtime_id
        then { s with sold_tickets := s.sold_tickets - 1 } else s) := hs'
    obtain ⟨s, hs, rfl⟩ := List.mem_map.mp hs''
    have hft' : db.tickets.find? (fun a => a.id == tid) = some t := hft
    have hcnt : ∀ x : Nat,
        purchasedCount (decrementSold (markCancelled db tid) t.showtime_id) x
          + (if t.showtime_id = x then 1 else 0)
        = purchasedCount db x := by
      intro x
      exact countP_markCancelled db.tickets tid t x hnd hft' hstat
    by_cases hsid : (s.id == t.showtime_id) = true
    · have hsideq : s.id = t.showtime_id := by simpa using hsid
      rw [if_pos hsid]
      have hc := hconsP s hs
      have hcnt' := hcnt s.id
      rw [if_pos hsideq.symm] at hcnt'
      show ((s.sold_tickets - 1 : Int) == (purchasedCount _ s.id : Int)) = true
      simp only [beq_iff_eq]
      omega
    · have hsidne : t.showtime_id ≠ s.id := by
        simpa using fun he => (by simpa using hsid : s.id ≠ t.showtime_id) he.symm
      rw [if_neg hsid]
      have hc := hconsP s hs
      have hcnt' := hcnt s.id
      rw [if_neg hsidne] at hcnt'
      simp only [Nat.add_zero] at hcnt'
      show ((s.sold_tickets : Int) == (purchasedCount _ s.id : Int)) = true
      rw [hcnt']
      simp only [beq_iff_eq, hc]

/-- C4 witness: from the concrete consistent one-ticket state, a committed
purchase (of seat `B-2`) and a committed cancel (of ticket 1) both yield
states in which every showtime's counter again equals its Purchased-ticket
count. -/
theorem claim4_witness :
    consistentB (incrementSold { exDBsold with tickets :=
        exDBsold.tickets ++ [mkPurchasedTicket exTd2 1 5 7] } 1) = true
    ∧ consistentB (decrementSold (markCancelled exDBsold 1) 1) = true := by
  have h := claim4_counter_consistency exDBsold (by decide) (by decide)
  constructor
  · exact h.1 1 exTd2 7 _ _ (by rfl)
  · exact h.2 1 _ ({ exTicket with status := TicketStatus.cancelled }) (by rfl)

/-! ## Claim C6 -/

/-- The conflict-query row predicate holds exactly of same-theater showtimes
whose half-open interval overlaps the candidate's (`s1 < e2 ∧ s2 < e1`) and
that are not the excluded showtime. -/
theorem conflictPred_iff (theaterId : Nat) (startTime endTime : Int)
    (excludeId : Option Nat) (s : Showtime) :
    (s.theater_id == theaterId && decide (s.start_time < endTime)
      && decide (s.end_time > startTime)
      && (match excludeId with
          | none => true
          | some ex => s.id != ex)) = true
    ↔ (s.theater_id = theaterId ∧ startTime < s.end_time
        ∧ s.start_time < endTime ∧ ∀ ex, excludeId = some ex → s.id ≠ ex) := by
  cases excludeId with
  | none =>
    simp only [Bool.and_eq_true, beq_iff_eq, decide_eq_true_eq, gt_iff_lt]
    constructor
    · rintro ⟨⟨⟨h1, h2⟩, h3⟩, _⟩
      exact ⟨h1, h3, h2, fun ex hx => nomatch hx⟩
    · rintro ⟨h1, h3, h2, _⟩
      exact ⟨⟨⟨h1, h2⟩, h3⟩, trivial⟩
  | some ex0 =>
    simp only [Bool.and_eq_true, beq_iff_eq, decide_eq_true_eq, gt_iff_lt,
      bne_iff_ne]
    constructor
    · rintro ⟨⟨⟨h1, h2⟩, h3⟩, h4⟩
      refine ⟨h1, h3, h2, fun ex hx => ?_⟩
      cases hx
      exact h4
    · rintro ⟨h1, h3, h2, h4⟩
      exact ⟨⟨⟨h1, h2⟩, h3⟩, h4 ex0 rfl⟩

/-- C6: `findConflictingShowtime` returns only rows of the store that belong
to the given theater, overlap the candidate interval `[s1,e1)` exactly in the
sense `s1 < e2 ∧ s2 < e1`, and are not the excluded showtime; it returns some
row iff such a row exists; and a back-to-back showtime (one end equal to the
other start) is never returned. -/
theorem claim6_conflict_detector (db : DB) (theaterId : Nat)
    (startTime endTime : Int) (excludeId : Option Nat) :
    (∀ st, findConflictingShowtime db theaterId startTime endTime excludeId
        = some st →
      st ∈ db.showtimes ∧ st.theater_id = theaterId ∧ startTime < st.end_time
        ∧ st.start_time < endTime ∧ ∀ ex, excludeId = some ex → st.id ≠ ex)
    ∧ ((findConflictingShowtime db theaterId startTime endTime excludeId).isSome
          = true
        ↔ ∃ st ∈ db.showtimes, st.theater_id = theaterId
            ∧ startTime < st.end_time ∧ st.start_time < endTime
            ∧ ∀ ex, excludeId = some ex → st.id ≠ ex)
    ∧ (∀ st ∈ db.showtimes,
        (st.end_time = startTime ∨ st.start_time = endTime) →
        findConflictingShowtime db theaterId startTime endTime excludeId
          ≠ some st) := by
  refine ⟨?_, ?_, ?_⟩
  · intro st h
    have hm := List.mem_of_find?_eq_some h
    have hp := List.find?_some h
    exact ⟨hm, (conflictPred_iff theaterId startTime endTime excludeId st).mp hp⟩
  · constructor
    · intro h
      obtain ⟨x, hx, hp⟩ := List.find?_isSome.mp h
      exact ⟨x, hx,
        (conflictPred_iff theaterId startTime endTime excludeId x).mp hp⟩
    · rintro ⟨stx, hmem, hprops⟩
      exact List.find?_isSome.mpr ⟨stx, hmem,
        (conflictPred_iff theaterId startTime endTime excludeId stx).mpr hprops⟩
  · intro st _hmem hbound heq
    have heq' : db.showtimes.find? (fun s =>
        s.theater_id == theaterId && decide (s.start_time < endTime)
          && decide (s.end_time > startTime)
          && (match excludeId with
              | none => true
              | some ex => s.id != ex)) = some st := heq
    have hp := List.find?_some heq'
    obtain ⟨_, h2, h3, _⟩ :=
      (conflictPred_iff theaterId startTime endTime excludeId st).mp hp
    rcases hbound with hb | hb
    · rw [hb] at h2; exact lt_irrefl _ h2
    · rw [hb] at h3; exact lt_irrefl _ h3

/-- C6 witness: a concrete overlapping interval (`[105,120)` against
`[100,110)`) in the same theater is detected. -/
theorem claim6_witness :
    (findConflictingShowtime exDB 1 105 120 none).isSome = true := by
  have h := claim6_conflict_detector exDB 1 105 120 none
  exact h.2.1.mpr ⟨exShowtime, by decide, by decide, by decide, by decide,
    fun ex hx => nomatch hx⟩

/-! ## Claim C7 -/

/-- C7 (code behaviour): updating a showtime's theater ONLY — here moving
showtime 1 onto theater 2, whose showtime 2 occupies the very same interval —
commits without any scheduling-conflict error, leaving two distinct
overlapping showtimes in theater 2, even though the self-excluded conflict
query on the new theater would have found the conflict.  The guard on line
152 of `showtimes.service.ts` tests only `movie_id` and `start_time`,
contradicting its own comment "Check for conflicts if changing theater,
movie, or time". -/
theorem claim7_theater_change_skips_conflict_check :
    ((updateShowtime db7 0 1 dto7).toOption.map (fun p =>
        decide (∃ s1 ∈ p.1.showtimes, ∃ s2 ∈ p.1.showtimes, s1.id ≠ s2.id
          ∧ s1.theater_id = s2.theater_id
          ∧ s1.start_time < s2.end_time ∧ s2.start_time < s1.end_time))
      = some true)
    ∧ (findConflictingShowtime db7 2 100 110 (some 1)).isSome = true
    ∧ ((updateShowtime db7 0 1 dto7).toOption.map (fun p => p.2.theater_id)
        = some 2) := by
  decide

/-! ## Claim C5 -/

/-- C5 (code behaviour): in a state where the Purchased seats of showtime 1
are pairwise distinct (`A-1`, `B-2`), the ticket-update operation applied to
ticket 2 with the lower-case seat `"a-1"` commits: the occupancy check
compares and queries the RAW seat (`"a-1"`, which matches no stored
upper-case seat) but the stored value is the normalized `"A-1"`, so the
update creates a duplicate Purchased `A-1` and seat uniqueness is broken. -/
theorem claim5_update_breaks_seat_uniqueness :
    seatsDistinctB db5 1 = true
    ∧ ((updateTicket db5 0 2 dto5).toOption.map (fun p => seatsDistinctB p.1 1)
        = some false)
    ∧ ((updateTicket db5 0 2 dto5).toOption.map (fun p => p.2.seat_number)
        = some "A-1") := by
  decide

/-! ## Service-level reduction lemmas for purchase -/

/-- When all service-level validations pass, `purchaseTicket` returns exactly
the repository transaction's result on the normalized ticket data. -/
theorem purchase_reduces_to_tx (db : DB) (now : Int) (sid : Nat)
    (dto : PurchaseTicketDto) (nid : Nat) (st : Showtime)
    (hst : findShowtime db sid = some st)
    (hfut : now < st.start_time)
    (hmail : isValidEmail dto.customer_email = true)
    (hseatok : isValidSeatNumber dto.seat_number = true) :
    (purchaseTicket db now sid dto nid).2
      = (purchaseTicketWithTransaction db sid
          { customer_name := jsTrim dto.customer_name
            customer_email := jsTrim (jsToLower dto.customer_email)
            seat_number := jsToUpper (jsTrim dto.seat_number) } nid).2 := by
  unfold purchaseTicket
  rw [hst]
  dsimp only
  rw [if_neg (not_le.mpr hfut)]
  simp only [hmail, hseatok, Bool.not_true, Bool.false_eq_true, if_false]

/-- A syntactically invalid seat (upper-cased raw input not matching the
pattern) makes the purchase fail with the invalid-seat-format error before
the transaction, provided the earlier guards pass. -/
theorem purchase_invalid_seat (db : DB) (now : Int) (sid : Nat)
    (dto : PurchaseTicketDto) (nid : Nat) (st : Showtime)
    (hst : findShowtime db sid = some st)
    (hfut : now < st.start_time)
    (hmail : isValidEmail dto.customer_email = true)
    (hbad : isValidSeatNumber dto.seat_number = false) :
    (purchaseTicket db now sid dto nid).2 = .error Err.invalidSeatFormat := by
  unfold purchaseTicket
  rw [hst]
  dsimp only
  rw [if_neg (not_le.mpr hfut)]
  simp only [hmail, hbad, Bool.not_true, Bool.not_false, Bool.false_eq_true,
    if_false, if_true]

/-- The transaction itself never raises the invalid-seat-format error: that
error exists only at the service layer. -/
theorem purchaseTx_no_seat_error (db : DB) (sid : Nat) (td : TicketData)
    (nid : Nat) :
    (purchaseTicketWithTransaction db sid td nid).2
      ≠ .error Err.invalidSeatFormat := by
  unfold purchaseTicketWithTransaction
  repeat' split
  all_goals try simp
  all_goals split <;> simp

/-- A committed purchase transaction with a fresh id returns exactly the
ticket built from the normalized data (at the showtime's price). -/
theorem purchase_ok_ticket (db : DB) (sid : Nat) (td : TicketData) (nid : Nat)
    (db' : DB) (t' : Ticket)
    (hfresh : ∀ x ∈ db.tickets, x.id ≠ nid)
    (hok : (purchaseTicketWithTransaction db sid td nid).2 = .ok (db', t')) :
    ∃ price, t' = mkPurchasedTicket td sid price nid := by
  obtain ⟨st2, th2, hst2, hth2, hcap2, hseat2, _hdbeq⟩ :=
    purchaseTx_ok_inversion db sid td nid db' t' hok
  have hsucc := purchaseTx_success db sid td nid st2 th2 hst2 hth2 hcap2
    hseat2 hfresh
  have h3 := hok.symm.trans hsucc
  simp only [Except.ok.injEq, Prod.mk.injEq] at h3
  exact ⟨st2.price, h3.2⟩

/-! ## Claim C8 -/

/-- C8 (counterexample): the claim says cancelling an already-Cancelled
ticket always fails with the invalid-ticket-state error, never any other
kind.  On this concrete state the ticket is Cancelled, but its showtime has
already started (start 100 ≤ now 200): the service checks the start time
FIRST and fails with the past-or-ongoing error instead. -/
theorem claim8_counterexample :
    (findTicket dbC8 1).map Ticket.status = some TicketStatus.cancelled
    ∧ (cancelTicket dbC8 200 1).2 = .error Err.cannotCancelPastShowtime
    ∧ Err.cannotCancelPastShowtime ≠ Err.onlyPurchasedCanBeCancelled := by
  refine ⟨rfl, rfl, by decide⟩

/-- C8 (amended): for a Cancelled ticket, cancel fails with the
invalid-ticket-state error when the showtime has not yet started, and with
the past-or-ongoing error when it has; either way the transaction produces no
state (rollback), so `sold_tickets` and the ticket's status are unchanged.
Moreover, within the purchase and cancel operations a ticket's status
transitions only Purchased → Cancelled: a committed cancel (on a store with
unique ticket ids) leaves every row unchanged except Purchased rows flipped
to Cancelled, and a committed purchase only appends a fresh Purchased row. -/
theorem claim8_cancel_states (db : DB) (now : Int) (tid : Nat) (t : Ticket)
    (st : Showtime)
    (hft : findTicket db tid = some t)
    (hshow : findShowtime db t.showtime_id = some st)
    (hcanc : t.status = TicketStatus.cancelled) :
    ((now < st.start_time →
        (cancelTicket db now tid).2 = .error Err.onlyPurchasedCanBeCancelled)
      ∧ (st.start_time ≤ now →
        (cancelTicket db now tid).2 = .error Err.cannotCancelPastShowtime))
    ∧ (∀ db2 now2 tid2 db' t',
        (db2.tickets.map Ticket.id).Nodup →
        (cancelTicket db2 now2 tid2).2 = .ok (db', t') →
        ∀ x' ∈ db'.tickets, x' ∈ db2.tickets
          ∨ ∃ x ∈ db2.tickets, x.status = TicketStatus.purchased
              ∧ x' = { x with status := TicketStatus.cancelled })
    ∧ (∀ db2 sid td nid db' t',
        (purchaseTicketWithTransaction db2 sid td nid).2 = .ok (db', t') →
        ∃ tN, db'.tickets = db2.tickets ++ [tN]
          ∧ tN.status = TicketStatus.purchased) := by
  refine ⟨⟨?_, ?_⟩, ?_, ?_⟩
  · intro hfut
    unfold cancelTicket
    rw [hft]
    dsimp only
    rw [hshow]
    dsimp only
    rw [if_neg (not_le.mpr hfut)]
    rw [if_pos (by simp [hcanc] : t.status ≠ TicketStatus.purchased)]
  · intro hpast
    unfold cancelTicket
    rw [hft]
    dsimp only
    rw [hshow]
    dsimp only
    rw [if_pos hpast]
  · intro db2 now2 tid2 db' t' hnd2 hok x' hx'
    obtain ⟨t2, hft2, hstat2, hdb⟩ :=
      cancel_ok_inversion db2 now2 tid2 db' t' hok
    subst hdb
    have hx'' : x' ∈ db2.tickets.map (fun x => if x.id == tid2
        then { x with status := TicketStatus.cancelled } else x) := hx'
    obtain ⟨x, hx, rfl⟩ := List.mem_map.mp hx''
    by_cases hxe : (x.id == tid2) = true
    · right
      have hxeq : x = t2 := mem_eq_of_find?_nodup db2.tickets tid2 t2 x hnd2
        hft2 hx (by simpa using hxe)
      refine ⟨x, hx, ?_, ?_⟩
      · rw [hxeq]; exact hstat2
      · rw [if_pos hxe]
    · left
      rw [if_neg hxe]
      exact hx
  · intro db2 sid td nid db' t' hok
    obtain ⟨st2, th2, _, _, _, _, hdb⟩ :=
      purchaseTx_ok_inversion db2 sid td nid db' t' hok
    subst hdb
    exact ⟨mkPurchasedTicket td sid st2.price nid, rfl, rfl⟩

/-- C8 witness: on the concrete Cancelled ticket whose showtime is still in
the future, cancel fails with exactly the invalid-ticket-state error. -/
theorem claim8_witness :
    (cancelTicket dbC8 0 1).2 = .error Err.onlyPurchasedCanBeCancelled := by
  have h := claim8_cancel_states dbC8 0 1
    ({ exTicket with status := TicketStatus.cancelled }) exShowtime rfl rfl rfl
  exact h.1.1 (by decide)

/-! ## Claim C9 -/

/-- C9 (counterexample): the claim says purchase accepts a seat exactly when
its TRIMMED and upper-cased form matches the pattern, giving `"  a-1  "` as
an example that should be accepted.  Concretely, the trimmed upper-cased form
`"A-1"` does match the pattern, yet the purchase fails with the
invalid-seat-format error, because `isValidSeatNumber` upper-cases but does
NOT trim before testing the anchored regex. -/
theorem claim9_counterexample :
    seatPattern (jsToUpper (jsTrim "  a-1  ")).data = true
    ∧ (purchaseTicket exDB 0 1 dto9 7).2 = .error Err.invalidSeatFormat := by
  refine ⟨by decide, rfl⟩

/-- C9 (amended): purchase accepts a seat number exactly when its upper-cased
(un-trimmed) form matches the pattern of 1–2 letters, a hyphen and 1–3
digits: with the other guards passing, an upper-case-matching seat never
yields the invalid-seat-format error and any resulting ticket stores the
trimmed upper-cased seat, while a non-matching seat always yields exactly
that error. -/
theorem claim9_seat_validation (db : DB) (now : Int) (sid : Nat)
    (dto : PurchaseTicketDto) (nid : Nat) (st : Showtime)
    (hst : findShowtime db sid = some st)
    (hfut : now < st.start_time)
    (hmail : isValidEmail dto.customer_email = true)
    (hfresh : ∀ x ∈ db.tickets, x.id ≠ nid) :
    (isValidSeatNumber dto.seat_number = false →
      (purchaseTicket db now sid dto nid).2 = .error Err.invalidSeatFormat)
    ∧ (isValidSeatNumber dto.seat_number = true →
        (purchaseTicket db now sid dto nid).2 ≠ .error Err.invalidSeatFormat
        ∧ ∀ db' t', (purchaseTicket db now sid dto nid).2 = .ok (db', t') →
            t'.seat_number = jsToUpper (jsTrim dto.seat_number)) := by
  constructor
  · intro hbad
    exact purchase_invalid_seat db now sid dto nid st hst hfut hmail hbad
  · intro hgood
    have hred := purchase_reduces_to_tx db now sid dto nid st hst hfut hmail
      hgood
    constructor
    · rw [hred]
      exact purchaseTx_no_seat_error db sid _ nid
    · intro db' t' hok
      rw [hred] at hok
      obtain ⟨price, rfl⟩ := purchase_ok_ticket db sid _ nid db' t' hfresh hok
      rfl

/-- C9 witness: the raw seat `"a-1"` (upper-cased: `"A-1"`, matching) is not
rejected with the invalid-seat-format error. -/
theorem claim9_witness :
    (purchaseTicket exDB 0 1 exDto 7).2 ≠ .error Err.invalidSeatFormat := by
  have h := claim9_seat_validation exDB 0 1 exDto 7 exShowtime rfl (by decide)
    (by decide) (by decide)
  exact (h.2 (by decide)).1

/-! ## Claim C10 -/

/-- C10 (counterexample): the claim says ticket retrieval by customer email
is insensitive to the surrounding whitespace of the caller's input.  On this
concrete state the lookup with `" a@b.c "` fails with the
invalid-email-format error — the regex check runs on the RAW argument and the
regex admits no whitespace — while the lookup with `"a@b.c"` returns the
stored ticket: the results differ. -/
theorem claim10_counterexample :
    findByCustomerEmail exDBsold " a@b.c " = .error Err.invalidEmailFormat
    ∧ findByCustomerEmail exDBsold "a@b.c" = .ok [exTicket]
    ∧ (Except.error Err.invalidEmailFormat : Except Err (List Ticket))
        ≠ .ok [exTicket] := by
  refine ⟨rfl, rfl, fun h => nomatch h⟩

/-- C10 (amended): purchase stores `customer_email` lower-cased and trimmed,
and the lookup lower-cases and trims its argument before querying, so
retrieval is insensitive to the letter case of inputs that pass the raw email
format check; inputs with surrounding whitespace are instead rejected by that
check before any trimming happens. -/
theorem claim10_email_normalization (db : DB) :
    (∀ e1 e2 : String, isValidEmail e1 = true → isValidEmail e2 = true →
        jsTrim (jsToLower e1) = jsTrim (jsToLower e2) →
        findByCustomerEmail db e1 = findByCustomerEmail db e2)
    ∧ (∀ now sid dto nid st db' t',
        findShowtime db sid = some st → now < st.start_time →
        isValidEmail dto.customer_email = true →
        isValidSeatNumber dto.seat_number = true →
        (∀ x ∈ db.tickets, x.id ≠ nid) →
        (purchaseTicket db now sid dto nid).2 = .ok (db', t') →
        t'.customer_email = jsTrim (jsToLower dto.customer_email)) := by
  constructor
  · intro e1 e2 h1 h2 hnorm
    unfold findByCustomerEmail
    simp only [h1, h2, Bool.not_true, Bool.false_eq_true, if_false]
    rw [hnorm]
  · intro now sid dto nid st db' t' hst hfut hmail hseat hfresh hok
    rw [purchase_reduces_to_tx db now sid dto nid st hst hfut hmail hseat]
      at hok
    obtain ⟨price, rfl⟩ := purchase_ok_ticket db sid _ nid db' t' hfresh hok
    rfl

/-- C10 witness: lookups with `"A@B.C"` and `"a@b.c"` agree. -/
theorem claim10_witness :
    findByCustomerEmail exDBsold "A@B.C" = findByCustomerEmail exDBsold "a@b.c" := by
  exact (claim10_email_normalization exDBsold).1 "A@B.C" "a@b.c" (by decide)
    (by decide) (by decide)

end Quetzal
